import Mathlib

/-!
Shallow embedding of `openwisp_utils/admin.py`.

The module defines Django admin mixins.  We embed each method that the
claims mention as a pure Lean function over the data it actually reads:

* field lists are `List String` (Python tuples/lists of field names);
* the "object present" argument `obj` of `get_fields` /
  `get_readonly_fields` is a `Bool` (`obj=None` on the add view,
  an object on the change view, used only through its truthiness);
* exceptions become an explicit `AdminError` sum returned through
  `Except`.  The Python exception classes involved are
  `CopyableFieldError` (a subclass of `django.core.exceptions.FieldError`),
  `ValueError`, and the `UnboundLocalError` the interpreter raises when
  a function reads a local variable that was never assigned.
-/

/-- The exception kinds the embedded code can raise.
`copyableFieldError` carries the data interpolated into the Python
message (admin class name, `copyable_fields`, the current field list);
`valueError` carries the message string; `unboundLocalError` carries the
name of the unassigned local variable. -/
inductive AdminError where
  | copyableFieldError (class_name : String)
      (copyable_fields fields : List String)
  | valueError (msg : String)
  | unboundLocalError (var : String)
deriving DecidableEq, Repr

/-- Whether the exception is (a subclass of) the host framework's
`FieldError`: true for `CopyableFieldError`, which the source declares as
`class CopyableFieldError(FieldError)`, and false for `ValueError` and
`UnboundLocalError`, which are unrelated built-in exception types. -/
def AdminError.isFieldError : AdminError → Bool
  | AdminError.copyableFieldError _ _ _ => true
  | _ => false

namespace TimeReadonlyAdminMixin

/-- `TimeReadonlyAdminMixin.__init__`:
`self.readonly_fields += ('created', 'modified')` — appends the two
timestamp field names to the current readonly tuple. -/
def init (readonly_fields : List String) : List String :=
  readonly_fields ++ ["created", "modified"]

end TimeReadonlyAdminMixin

namespace ReadOnlyAdmin

/-- `ReadOnlyAdmin.__init__`: sets
`self.readonly_fields = [f.name for f in self.model._meta.fields
 if f.name not in exclude]`.
`modelFields` is the ordered list of the model's field names
(`self.model._meta.fields`), `exclude` the `exclude` attribute. -/
def init (modelFields exclude : List String) : List String :=
  modelFields.filter (fun f => !exclude.contains f)

end ReadOnlyAdmin

namespace AlwaysHasChangedMixin

/-- `AlwaysHasChangedMixin.has_changed`: returns `True` when
`self.instance._state.adding` is set (the instance is not yet persisted),
otherwise returns `super().has_changed()`, whose value we take as the
argument `superHasChanged`. -/
def has_changed (adding superHasChanged : Bool) : Bool :=
  if adding then true else superHasChanged

end AlwaysHasChangedMixin

namespace CopyableFieldsAdmin

/-- `CopyableFieldsAdmin._check_copyable_subset_fields`: raises
`CopyableFieldError` (whose message interpolates `copyable_fields`, the
admin class name and `fields`) unless
`set(copyable_fields).issubset(fields)`. -/
def check_copyable_subset_fields (class_name : String)
    (copyable_fields fields : List String) : Except AdminError Unit :=
  if copyable_fields.all (fun f => fields.contains f) then Except.ok ()
  else Except.error
    (AdminError.copyableFieldError class_name copyable_fields fields)

/-- `CopyableFieldsAdmin.get_fields`: first runs the subset check, then
on the add view (`not obj`) returns
`tuple(set(fields).difference(self.copyable_fields))`, and on the change
view returns `fields` unchanged.  Python's `set` iterates in an
unspecified order, so the tuple built on the add view has an arbitrary
order and no duplicates; we determinize it as
`(fields.filter (· ∉ copyable_fields)).dedup` and state only
order-insensitive properties about that branch.  `fields` stands for the
result of `super(ModelAdmin, self).get_fields(request, obj)`. -/
def get_fields (class_name : String) (copyable_fields fields : List String)
    (obj : Bool) : Except AdminError (List String) :=
  match check_copyable_subset_fields class_name copyable_fields fields with
  | Except.error e => Except.error e
  | Except.ok _ =>
      if !obj then
        Except.ok ((fields.filter (fun f => !copyable_fields.contains f)).dedup)
      else
        Except.ok fields

/-- `CopyableFieldsAdmin.get_readonly_fields`: on the add view
(`not obj`) returns the declared readonly tuple unchanged; on the change
view returns `tuple([*readonly_fields, *self.copyable_fields])`, i.e.
the concatenation.  `readonly_fields` stands for the result of
`super(ModelAdmin, self).get_readonly_fields(request, obj)`. -/
def get_readonly_fields (readonly_fields copyable_fields : List String)
    (obj : Bool) : List String :=
  if !obj then readonly_fields
  else readonly_fields ++ copyable_fields

end CopyableFieldsAdmin

/-- The class attributes of `ReceiveUrlAdmin` read by `receive_url`.
Each is a string-or-`None` attribute; `none` models `None` and
`some s` a string value (Python truthiness of such an attribute is
"not `None` and not the empty string"). Field order follows the source:
`receive_url_querystring_arg = 'key'`, `receive_url_object_arg = 'pk'`,
`receive_url_name = None`, `receive_url_urlconf = None`,
`receive_url_baseurl = None`. -/
structure ReceiveUrlConfig where
  receive_url_querystring_arg : Option String
  receive_url_object_arg : Option String
  receive_url_name : Option String
  receive_url_urlconf : Option String
  receive_url_baseurl : Option String
deriving DecidableEq, Repr

/-- The pieces of the stored request that `receive_url` reads:
`self.request.scheme` and `self.request.get_host()`. -/
structure Request where
  scheme : String
  host : String
deriving DecidableEq, Repr

namespace ReceiveUrlAdmin

/-- `ReceiveUrlAdmin.receive_url`.  Raises
`ValueError('receive_url_name is not set up')` when `receive_url_name`
is `None`; builds `reverse_kwargs` from `receive_url_object_arg` when
that is truthy; resolves the path through Django's `reverse` (an
external collaborator, passed in as the function argument `reverse`
taking the view name, the urlconf and the kwargs); takes the base URL
from `receive_url_baseurl` when truthy, else from the stored request's
scheme and host; when `receive_url_querystring_arg` is truthy assigns
`url = '{0}{1}?{2}={3}'.format(baseurl, receive_path, arg,
getattr(obj, arg))`.  The final `return url` reads a local that was
never assigned when `receive_url_querystring_arg` is falsy, which the
interpreter surfaces as `UnboundLocalError` for the variable `url`.
The object `obj` is modelled by its `getattr` view, a function from
attribute names to (string) values. -/
def receive_url
    (reverse : String → Option String → List (String × String) → String)
    (cfg : ReceiveUrlConfig) (request : Request) (obj : String → String) :
    Except AdminError String :=
  match cfg.receive_url_name with
  | none => Except.error (AdminError.valueError "receive_url_name is not set up")
  | some name =>
      let reverse_kwargs : List (String × String) :=
        match cfg.receive_url_object_arg with
        | some a => if a.isEmpty then [] else [(a, obj a)]
        | none => []
      let receive_path := reverse name cfg.receive_url_urlconf reverse_kwargs
      let baseurl : String :=
        match cfg.receive_url_baseurl with
        | some b => if b.isEmpty then request.scheme ++ "://" ++ request.host
                    else b
        | none => request.scheme ++ "://" ++ request.host
      match cfg.receive_url_querystring_arg with
      | some q =>
          if q.isEmpty then Except.error (AdminError.unboundLocalError "url")
          else Except.ok (baseurl ++ receive_path ++ "?" ++ q ++ "=" ++ obj q)
      | none => Except.error (AdminError.unboundLocalError "url")

end ReceiveUrlAdmin

/-- A concrete stand-in for Django's `reverse`, used only in closed
witness and counterexample statements. -/
def reverseStub : String → Option String → List (String × String) → String :=
  fun name _ kwargs =>
    "/" ++ name ++ "/" ++ String.intercalate "/" (kwargs.map Prod.snd) ++ "/"

/-- A concrete stored request for closed statements. -/
def reqExample : Request := ⟨"https", "example.com"⟩

/-- A concrete object (its `getattr` view) with `pk = "42"` and
`key = "abc"`. -/
def objExample : String → String :=
  fun a => if a = "pk" then "42" else if a = "key" then "abc" else ""

/-- The Python membership test behind `issubset`: `copyable_fields.all
(fields.contains ·)` decides exactly set inclusion of the name sets. -/
theorem all_contains_iff_subset (cf fields : List String) :
    (cf.all (fun f => fields.contains f) = true)
      ↔ cf.toFinset ⊆ fields.toFinset := by
  simp [List.all_eq_true, Finset.subset_iff]

/-- C1: on every call to `CopyableFieldsAdmin.get_fields` — object
present or absent — the call raises a `CopyableFieldError` naming the
copyable fields, the field list and the admin class exactly when
`copyable_fields` is not a subset of the field list, and returns a
result (raises nothing) exactly when it is a subset. -/
theorem get_fields_configuration_error_iff (class_name : String)
    (copyable_fields fields : List String) (obj : Bool) :
    (CopyableFieldsAdmin.get_fields class_name copyable_fields fields obj
        = Except.error
            (AdminError.copyableFieldError class_name copyable_fields fields)
      ↔ ¬ copyable_fields.toFinset ⊆ fields.toFinset) ∧
    ((∃ r, CopyableFieldsAdmin.get_fields class_name copyable_fields fields obj
        = Except.ok r)
      ↔ copyable_fields.toFinset ⊆ fields.toFinset) := by
  unfold CopyableFieldsAdmin.get_fields
    CopyableFieldsAdmin.check_copyable_subset_fields
  by_cases h : copyable_fields.all (fun f => fields.contains f) = true
  · rw [all_contains_iff_subset] at h
    simp only [all_contains_iff_subset, if_pos h]
    constructor
    · simp [h]
      cases obj <;> simp
    · simp [h]
      cases obj <;> simp
  · rw [all_contains_iff_subset] at h
    simp only [all_contains_iff_subset, if_neg h]
    simp [h]

/-- C2: under the subset precondition, `CopyableFieldsAdmin.get_fields`
with the object absent returns a sequence whose members are exactly the
declared fields not in `copyable_fields`, and with the object present
returns the declared field list unchanged. -/
theorem get_fields_result_spec (class_name : String)
    (copyable_fields fields : List String)
    (h : copyable_fields.toFinset ⊆ fields.toFinset) :
    (∃ r, CopyableFieldsAdmin.get_fields class_name copyable_fields fields false
        = Except.ok r
      ∧ ∀ f, f ∈ r ↔ (f ∈ fields ∧ f ∉ copyable_fields)) ∧
    CopyableFieldsAdmin.get_fields class_name copyable_fields fields true
      = Except.ok fields := by
  rw [← all_contains_iff_subset] at h
  unfold CopyableFieldsAdmin.get_fields
    CopyableFieldsAdmin.check_copyable_subset_fields
  rw [if_pos h]
  refine ⟨⟨_, rfl, ?_⟩, rfl⟩
  intro f
  simp [List.mem_dedup, List.mem_filter]

/-- Witness for C2 at `copyable_fields = ["uuid"]`,
`fields = ["name", "uuid", "key"]`. -/
theorem get_fields_result_spec_witness :
    (∃ r, CopyableFieldsAdmin.get_fields "DeviceAdmin" ["uuid"]
        ["name", "uuid", "key"] false = Except.ok r
      ∧ ∀ f, f ∈ r ↔ (f ∈ ["name", "uuid", "key"] ∧ f ∉ ["uuid"])) ∧
    CopyableFieldsAdmin.get_fields "DeviceAdmin" ["uuid"]
        ["name", "uuid", "key"] true
      = Except.ok ["name", "uuid", "key"] :=
  get_fields_result_spec "DeviceAdmin" ["uuid"] ["name", "uuid", "key"]
    (by decide)

/-- C3: `CopyableFieldsAdmin.get_readonly_fields` with the object absent
returns the declared readonly list unchanged; with the object present the
result's members are exactly the union — it contains every member of the
declared readonly list and every member of `copyable_fields`. -/
theorem get_readonly_fields_spec (readonly_fields copyable_fields : List String) :
    CopyableFieldsAdmin.get_readonly_fields readonly_fields copyable_fields false
      = readonly_fields ∧
    (∀ f, f ∈ CopyableFieldsAdmin.get_readonly_fields readonly_fields
        copyable_fields true
      ↔ (f ∈ readonly_fields ∨ f ∈ copyable_fields)) := by
  refine ⟨rfl, fun f => ?_⟩
  simp [CopyableFieldsAdmin.get_readonly_fields]

/-- C10: with the object present, `CopyableFieldsAdmin.get_readonly_fields`
is exactly the order-preserving concatenation of the declared readonly
list and `copyable_fields`, without deduplication: every field occurs as
many times as its occurrences in the two inputs combined, so a field in
both lists occurs (at least) twice. -/
theorem get_readonly_fields_concat (readonly_fields copyable_fields : List String)
    (f : String) :
    CopyableFieldsAdmin.get_readonly_fields readonly_fields copyable_fields true
      = readonly_fields ++ copyable_fields ∧
    (CopyableFieldsAdmin.get_readonly_fields readonly_fields copyable_fields
        true).count f
      = readonly_fields.count f + copyable_fields.count f := by
  refine ⟨rfl, ?_⟩
  simp [CopyableFieldsAdmin.get_readonly_fields, List.count_append]

/-- C4 counterexample: the timestamp readonly transformation is not
idempotent on the readonly list itself — applying
`TimeReadonlyAdminMixin.init` twice to the empty list yields
`["created", "modified", "created", "modified"]`, not
`["created", "modified"]`, because `__init__` appends unconditionally. -/
theorem timeReadonly_init_not_idempotent :
    TimeReadonlyAdminMixin.init (TimeReadonlyAdminMixin.init [])
      ≠ TimeReadonlyAdminMixin.init []
    ∧ TimeReadonlyAdminMixin.init (TimeReadonlyAdminMixin.init [])
      = ["created", "modified", "created", "modified"] := by
  constructor
  · decide
  · rfl

/-- C4 amended: `TimeReadonlyAdminMixin.__init__` appends
`("created", "modified")` to the readonly list; the resulting readonly
field SET is `L ∪ {"created", "modified"}` for every `L`, and at that
set level the transformation is idempotent, though the underlying
sequence itself grows on each application. -/
theorem timeReadonly_init_set_spec (L : List String) :
    (TimeReadonlyAdminMixin.init L).toFinset
      = L.toFinset ∪ {"created", "modified"} ∧
    (TimeReadonlyAdminMixin.init (TimeReadonlyAdminMixin.init L)).toFinset
      = (TimeReadonlyAdminMixin.init L).toFinset := by
  constructor
  · ext f
    simp [TimeReadonlyAdminMixin.init]
  · ext f
    simp [TimeReadonlyAdminMixin.init]

/-- C8: `ReadOnlyAdmin.__init__` sets the readonly list to exactly the
model's field names outside the exclude set, in model field order (the
result is a sublist of the model's field list); on
`["id", "name", "secret"]` with exclude `["secret"]` it yields
`["id", "name"]`. -/
theorem readOnlyAdmin_init_spec (modelFields exclude : List String) :
    (∀ f, f ∈ ReadOnlyAdmin.init modelFields exclude
      ↔ (f ∈ modelFields ∧ f ∉ exclude)) ∧
    (ReadOnlyAdmin.init modelFields exclude).Sublist modelFields ∧
    ReadOnlyAdmin.init ["id", "name", "secret"] ["secret"] = ["id", "name"] := by
  refine ⟨fun f => ?_, List.filter_sublist _, by rfl⟩
  simp [ReadOnlyAdmin.init, List.mem_filter]

/-- C9: `AlwaysHasChangedMixin.has_changed` returns `true` whenever the
instance is not yet persisted (`adding` set), whatever the host's own
comparison would say, and returns exactly the host's comparison result
for a persisted instance. -/
theorem has_changed_spec (superHasChanged : Bool) :
    AlwaysHasChangedMixin.has_changed true superHasChanged = true ∧
    AlwaysHasChangedMixin.has_changed false superHasChanged = superHasChanged :=
  ⟨rfl, rfl⟩

/-- A concrete configuration with `receive_url_name` left at its default
`None` (the other attributes at their class defaults). -/
def cfgUnsetName : ReceiveUrlConfig :=
  ⟨some "key", some "pk", none, none, none⟩

/-- C5 counterexample: with the view name unset, `receive_url` raises
`ValueError`, which is NOT the `FieldError`-derived kind
(`CopyableFieldError`) used by the copyable-fields subset check — so the
error raised here is not "the same specialized field-validation error"
as the claim states. -/
theorem receive_url_error_kind_counterexample :
    ReceiveUrlAdmin.receive_url reverseStub cfgUnsetName reqExample objExample
      = Except.error (AdminError.valueError "receive_url_name is not set up")
    ∧ AdminError.isFieldError
        (AdminError.valueError "receive_url_name is not set up") = false
    ∧ AdminError.isFieldError
        (AdminError.copyableFieldError "DeviceAdmin" ["uuid"] []) = true := by
  exact ⟨rfl, rfl, rfl⟩

/-- C5 amended: for every object, request and configuration,
`receive_url` raises a `ValueError` (a different exception kind from the
`CopyableFieldError` used by the subset check) if and only if
`receive_url_name` is unset. -/
theorem receive_url_valueError_iff_name_unset
    (reverse : String → Option String → List (String × String) → String)
    (cfg : ReceiveUrlConfig) (request : Request) (obj : String → String) :
    (∃ msg, ReceiveUrlAdmin.receive_url reverse cfg request obj
        = Except.error (AdminError.valueError msg))
      ↔ cfg.receive_url_name = none := by
  unfold ReceiveUrlAdmin.receive_url
  cases hn : cfg.receive_url_name with
  | none => simp
  | some name =>
      simp only [hn]
      cases hq : cfg.receive_url_querystring_arg with
      | none => simp
      | some q =>
          by_cases hqe : q.isEmpty
          · simp [hq, hqe]
          · simp [hq, hqe]

/-- A concrete configuration with a falsy querystring argument (the
empty string) and everything else set. -/
def cfgFalsyQuerystring : ReceiveUrlConfig :=
  ⟨some "", some "pk", some "device-receive", none, some "https://x.test"⟩

/-- C6 (code bug): with the view name set but the querystring argument
falsy, `receive_url` does not return the path alone — the function body
never assigned the local `url` on this branch, so `return url` raises
`UnboundLocalError`. -/
theorem receive_url_unbound_local_on_falsy_querystring :
    ReceiveUrlAdmin.receive_url reverseStub cfgFalsyQuerystring reqExample
        objExample
      = Except.error (AdminError.unboundLocalError "url") := by
  exact rfl

/-- C7: with the view name, object argument, querystring argument and
base URL override all set (truthy), `receive_url` returns the override
concatenated with the reversed path for the object argument's attribute
value, followed by `?<querystring_arg>=<attribute value>`; the stored
request's scheme and host do not appear in the result. -/
theorem receive_url_full_config
    (reverse : String → Option String → List (String × String) → String)
    (request : Request) (obj : String → String)
    (name oarg qarg base : String) (urlconf : Option String)
    (hoarg : oarg ≠ "") (hqarg : qarg ≠ "") (hbase : base ≠ "") :
    ReceiveUrlAdmin.receive_url reverse
        ⟨some qarg, some oarg, some name, urlconf, some base⟩ request obj
      = Except.ok (base ++ reverse name urlconf [(oarg, obj oarg)]
          ++ "?" ++ qarg ++ "=" ++ obj qarg) := by
  unfold ReceiveUrlAdmin.receive_url
  simp [String.isEmpty_iff, hoarg, hqarg, hbase]

/-- Witness for C7 at the spec's example: view name `device-receive`,
object argument `pk` with value `42`, querystring argument `key` with
value `abc`, base override `https://x.test`. -/
theorem receive_url_full_config_witness :
    ReceiveUrlAdmin.receive_url reverseStub
        ⟨some "key", some "pk", some "device-receive", none, some "https://x.test"⟩
        reqExample objExample
      = Except.ok ("https://x.test"
          ++ reverseStub "device-receive" none [("pk", objExample "pk")]
          ++ "?" ++ "key" ++ "=" ++ objExample "key") :=
  receive_url_full_config reverseStub reqExample objExample
    "device-receive" "pk" "key" "https://x.test" none
    (by decide) (by decide) (by decide)
